import Mathlib

/-!
Verification of the Steam-to-Notion synchronization script (main.py).

The embedding below translates the decision logic of the script into Lean:
network calls are modelled by explicit inputs (an attempt oracle for the
retry client, an optional parsed response for the Steam and Notion calls),
Python dicts with a fixed key set become Lean structures or association
lists, Python floats become rationals with an explicit round-half-to-even
rounding function, and Python `time.localtime` is modelled as UTC (the
cutoff timestamp and date strings are never compared against concrete
wall-clock values in any theorem that depends on the timezone).
-/

namespace SteamNotion

/-! ## Numeric model

Python `round(x, 1)` rounds half to even at one decimal place.  We model
floats as rationals; `roundHalfEven` is integer rounding with ties going to
the even integer, and `round1` applies it at one decimal digit. -/

def roundHalfEven (q : ℚ) : ℤ :=
  let f := ⌊q⌋
  let frac := q - (f : ℚ)
  if frac < 1/2 then f
  else if 1/2 < frac then f + 1
  else if f % 2 = 0 then f else f + 1

def round1 (q : ℚ) : ℚ :=
  ((roundHalfEven (q * 10) : ℚ)) / 10

/-- Python str() of a one-decimal nonnegative float value: the integer part,
a dot, and the single decimal digit (str(50.0) is the string 50.0). -/
def formatFloat1 (q : ℚ) : String :=
  let n : ℤ := ⌊q * 10⌋
  toString (n / 10) ++ "." ++ toString (n % 10)

/-! ## Data model (section 3 of the spec, from main.py usage sites) -/

/-- A game entry from GetOwnedGames.  `rtime_last_played` is optional in the
Steam payload; the code reads it with `.get("rtime_last_played", 0)`. -/
structure Game where
  appid : ℕ
  name : String
  playtime_forever : ℕ
  rtime_last_played : Option ℤ
  img_icon_url : String
deriving DecidableEq

/-- The achievements_info dict built by get_achievements_count. -/
structure AchievementsInfo where
  total : ℤ
  achieved : ℤ
deriving DecidableEq

/-- One entry of playerstats.achievements; only the truthiness of the
`achieved` field is used. -/
structure AchievementEntry where
  achieved : Bool
deriving DecidableEq

/-- The playerstats object of GetPlayerAchievements: a success flag and an
optional achievements list (the key may be absent). -/
structure PlayerStats where
  success : Bool
  achievements : Option (List AchievementEntry)
deriving DecidableEq

/-- The whole GetPlayerAchievements JSON body; the playerstats key may be
absent, in which case reading success with .get defaults and an empty dict
yields False. -/
structure AchievementsResponse where
  playerstats : Option PlayerStats
deriving DecidableEq

/-- A tag value from steam_store_data.get("tag", []).  The code only
distinguishes dict tags (and whether they carry a name field) from
everything else, which is wrapped with str(tag). -/
inductive Tag
  /-- a Python dict; the field holds tag["name"] when the name key exists -/
  | dict (name : Option String)
  /-- any non-dict value; the string is str(tag) -/
  | nondict (s : String)
deriving DecidableEq

/-- steam_store_data: both fields read with .get and a default. -/
structure SteamStoreData where
  info : Option String
  tag : Option (List Tag)
deriving DecidableEq

/-- A Notion property value as serialized by the script.  Rich-text and
title values always hold a single text fragment, multi-select values a list
of option names, so the lists of wrapper objects collapse to their payload
strings. -/
inductive NotionProp
  | title (content : String)
  | number (n : ℚ)
  | date (start : String)
  | url (u : String)
  | richText (content : String)
  | multiSelect (names : List String)
  | checkbox (b : Bool)
deriving DecidableEq

/-! ## Static configuration tables (main.py lines 20-49) -/

def PROPERTY_MAPPING : List (String × String) :=
  [("TITLE", "游戏名称"),
   ("PLAYTIME", "游玩时长 (h)"),
   ("LAST_PLAYED", "上次游玩时间"),
   ("STORE_URL", "商店链接"),
   ("COMPLETION", "完成度"),
   ("TOTAL_ACHIEVEMENTS", "总成就数"),
   ("ACHIEVED_ACHIEVEMENTS", "已完成成就数"),
   ("REVIEW", "评测"),
   ("INFO", "游戏简介"),
   ("TAGS", "游戏标签")]

def PROPERTY_TYPES : List (String × String) :=
  [("游戏名称", "title"),
   ("游玩时长 (h)", "number"),
   ("上次游玩时间", "date"),
   ("商店链接", "url"),
   ("完成度", "multi_select"),
   ("总成就数", "number"),
   ("已完成成就数", "number"),
   ("评测", "rich_text"),
   ("游戏简介", "rich_text"),
   ("游戏标签", "multi_select")]

/-- PROPERTY_MAPPING[k]; every use site indexes an existing key. -/
def pmGet (k : String) : String :=
  ((PROPERTY_MAPPING.lookup k).getD "")

/-- PROPERTY_TYPES.get(k, "") as used on lines 239, 251, 369, 381. -/
def ptGet (k : String) : String :=
  ((PROPERTY_TYPES.lookup k).getD "")

def MAX_RETRIES : ℕ := 20

def RETRY_DELAY : ℕ := 2

/-! ## HTTP retry client (send_request_with_retry, lines 53-75)

The network is an oracle `attempt : ℕ → Option α` giving the outcome of the
n-th request (`none` is a raised RequestException or non-2xx status).  The
function returns the response (or `none` for the Python empty-dict
fallback) together with the number of attempts performed. -/

def retryLoop {α : Type} (attempt : ℕ → Option α) (i : ℕ) : ℕ → Option α × ℕ
  | 0 => (none, 0)
  | r + 1 =>
    match attempt i with
    | some resp => (some resp, 1)
    | none =>
      if r > 0 then
        let rest := retryLoop attempt (i + 1) r
        (rest.1, rest.2 + 1)
      else
        (none, 1)

def send_request_with_retry {α : Type} (attempt : ℕ → Option α) (retries : ℕ) :
    Option α × ℕ :=
  retryLoop attempt 0 retries

/-- Python .get with a default, as a plain pattern match. -/
def getD {α : Type} (o : Option α) (d : α) : α :=
  match o with
  | some x => x
  | none => d

/-! ## Date formatting

time.strftime("%Y-%m-%d", time.localtime(t)) with the local timezone
modelled as UTC: convert the Unix timestamp to a civil date with the
standard era-based algorithm and zero-pad month and day. -/

def civilFromDays (z0 : ℤ) : ℤ × ℤ × ℤ :=
  let z := z0 + 719468
  let era := Int.ediv z 146097
  let doe := z - era * 146097
  let yoe := Int.ediv (doe - Int.ediv doe 1460 + Int.ediv doe 36524 - Int.ediv doe 146096) 365
  let y := yoe + era * 400
  let doy := doe - (365 * yoe + Int.ediv yoe 4 - Int.ediv yoe 100)
  let mp := Int.ediv (5 * doy + 2) 153
  let d := doy - Int.ediv (153 * mp + 2) 5 + 1
  let m := mp + (if mp < 10 then 3 else (-9 : ℤ))
  (if m ≤ 2 then y + 1 else y, m, d)

def pad2 (n : ℤ) : String :=
  if n < 10 then "0" ++ toString n else toString n

def strftimeYMD (t : ℤ) : String :=
  let c := civilFromDays (Int.ediv t 86400)
  toString c.1 ++ "-" ++ pad2 c.2.1 ++ "-" ++ pad2 c.2.2

/-! ## Derived fields shared by create and update (lines 204-215, 332-343) -/

/-- completion as computed on lines 213-215 and 341-343: -1 unless
total_achievements > 0, else round(achieved / total * 100, 1). -/
def completion_of (achievements_info : AchievementsInfo) : ℚ :=
  let total_achievements := achievements_info.total
  let achieved_achievements := achievements_info.achieved
  if total_achievements > 0 then
    round1 ((achieved_achievements : ℚ) / (total_achievements : ℚ) * 100)
  else
    (-1 : ℚ)

/-! ## Notion page properties (add, lines 194-281; update, lines 324-410)

The properties dict is an insertion-ordered association list.  Each builder
is transliterated separately from its own function body; the two bodies are
line-for-line identical in the source. -/

def add_item_to_notion_database_properties (game : Game)
    (achievements_info : AchievementsInfo) (review_text : String)
    (steam_store_data : SteamStoreData) : List (String × NotionProp) :=
  let playtime := round1 ((game.playtime_forever : ℚ) / 60)
  let last_played_time := strftimeYMD (getD game.rtime_last_played 0)
  let store_url := "https://store.steampowered.com/app/" ++ toString game.appid
  let total_achievements := achievements_info.total
  let achieved_achievements := achievements_info.achieved
  let completion := completion_of achievements_info
  let properties : List (String × NotionProp) :=
    [(pmGet "TITLE", NotionProp.title game.name),
     (pmGet "PLAYTIME", NotionProp.number playtime),
     (pmGet "LAST_PLAYED", NotionProp.date last_played_time),
     (pmGet "STORE_URL", NotionProp.url store_url),
     (pmGet "TOTAL_ACHIEVEMENTS", NotionProp.number (total_achievements : ℚ)),
     (pmGet "ACHIEVED_ACHIEVEMENTS", NotionProp.number (achieved_achievements : ℚ)),
     (pmGet "REVIEW", NotionProp.richText review_text),
     (pmGet "INFO", NotionProp.richText (getD steam_store_data.info ""))]
  let properties :=
    if ptGet (pmGet "COMPLETION") = "multi_select" then
      let completion_value : List String :=
        if completion ≥ 0 then [formatFloat1 completion ++ "%"] else []
      properties ++ [(pmGet "COMPLETION", NotionProp.multiSelect completion_value)]
    else
      properties ++ [(pmGet "COMPLETION", NotionProp.number completion)]
  let properties :=
    if ptGet (pmGet "TAGS") = "checkbox" then
      let has_tags := (getD steam_store_data.tag []).length > 0
      properties ++ [(pmGet "TAGS", NotionProp.checkbox has_tags)]
    else
      let tags := (getD steam_store_data.tag []).foldl
        (fun tags tag =>
          match tag with
          | Tag.dict (some n) => tags ++ [n]
          | Tag.dict none => tags
          | Tag.nondict s => tags ++ [s]) []
      properties ++ [(pmGet "TAGS", NotionProp.multiSelect tags)]
  properties

def update_item_to_notion_database_properties (game : Game)
    (achievements_info : AchievementsInfo) (review_text : String)
    (steam_store_data : SteamStoreData) : List (String × NotionProp) :=
  let playtime := round1 ((game.playtime_forever : ℚ) / 60)
  let last_played_time := strftimeYMD (getD game.rtime_last_played 0)
  let store_url := "https://store.steampowered.com/app/" ++ toString game.appid
  let total_achievements := achievements_info.total
  let achieved_achievements := achievements_info.achieved
  let completion := completion_of achievements_info
  let properties : List (String × NotionProp) :=
    [(pmGet "TITLE", NotionProp.title game.name),
     (pmGet "PLAYTIME", NotionProp.number playtime),
     (pmGet "LAST_PLAYED", NotionProp.date last_played_time),
     (pmGet "STORE_URL", NotionProp.url store_url),
     (pmGet "TOTAL_ACHIEVEMENTS", NotionProp.number (total_achievements : ℚ)),
     (pmGet "ACHIEVED_ACHIEVEMENTS", NotionProp.number (achieved_achievements : ℚ)),
     (pmGet "REVIEW", NotionProp.richText review_text),
     (pmGet "INFO", NotionProp.richText (getD steam_store_data.info ""))]
  let properties :=
    if ptGet (pmGet "COMPLETION") = "multi_select" then
      let completion_value : List String :=
        if completion ≥ 0 then [formatFloat1 completion ++ "%"] else []
      properties ++ [(pmGet "COMPLETION", NotionProp.multiSelect completion_value)]
    else
      properties ++ [(pmGet "COMPLETION", NotionProp.number completion)]
  let properties :=
    if ptGet (pmGet "TAGS") = "checkbox" then
      let has_tags := (getD steam_store_data.tag []).length > 0
      properties ++ [(pmGet "TAGS", NotionProp.checkbox has_tags)]
    else
      let tags := (getD steam_store_data.tag []).foldl
        (fun tags tag =>
          match tag with
          | Tag.dict (some n) => tags ++ [n]
          | Tag.dict none => tags
          | Tag.nondict s => tags ++ [s]) []
      properties ++ [(pmGet "TAGS", NotionProp.multiSelect tags)]
  properties

/-! ## Record filter (is_record, lines 178-192) -/

/-- time.mktime(strptime("2020-01-01 00:00:00")) with local time modelled
as UTC.  Every theorem below treats this constant symbolically, so its
concrete value never decides a claim. -/
def not_record_timestamp : ℤ := 1577836800

/-- The filter condition of lines 184-188, on the already-derived playtime
(hours, one decimal), last-played timestamp and achievements total. -/
def is_record_core (playtime : ℚ) (last_played : ℤ) (total : ℤ) : Bool :=
  if (playtime < 1/10 ∧ total < 1) ∨
     (last_played < not_record_timestamp ∧ total < 1 ∧ playtime < 6) then
    false
  else
    true

def is_record (game : Game) (achievements_info : AchievementsInfo) : Bool :=
  let playtime := round1 ((game.playtime_forever : ℚ) / 60)
  is_record_core playtime (getD game.rtime_last_played 0) achievements_info.total

/-! ## Achievements counting (lines 130-176)

query_achievements_info_from_steam (lines 130-149) performs a direct
requests.get with no retry wrapper.  Its outcome space is modelled
explicitly, because the except paths are not uniform: on a non-2xx status
or a JSON parse error the handlers log and fall through to `return None`,
but when requests.get itself raises (connection error, timeout) the local
variable `response` was never bound, and the handler expression on line
145, `response.text if hasattr(response, "text") else str(e)`, evaluates
the unbound local and raises UnboundLocalError, which neither except
clause nor any caller catches.  A function call in this model therefore
either returns a value or propagates a named exception. -/

/-- The outcome of the underlying requests.get call on lines 141-143. -/
inductive SteamCallOutcome
  /-- requests.get itself raised, before `response` was bound -/
  | transportError
  /-- `response` was bound and raise_for_status raised (non-2xx status) -/
  | httpError
  /-- 2xx status but response.json() raised a parse error -/
  | parseError
  /-- 2xx status with a parsed JSON body -/
  | ok (body : AchievementsResponse)
deriving DecidableEq

/-- A Python call either returns a value or lets an exception escape. -/
inductive PyOutcome (α : Type)
  | ret (a : α)
  | raise (exnName : String)
deriving DecidableEq

/-- query_achievements_info_from_steam, lines 140-149: the try body returns
the parsed JSON; the RequestException handler logs and falls through to
`return None` when `response` is bound, but evaluates the unbound local
`response` (line 145) and raises UnboundLocalError when requests.get itself
raised; the ValueError handler (parse failure) falls through to
`return None`. -/
def query_achievements_info_from_steam (call : SteamCallOutcome) :
    PyOutcome (Option AchievementsResponse) :=
  match call with
  | SteamCallOutcome.transportError => PyOutcome.raise "UnboundLocalError"
  | SteamCallOutcome.httpError => PyOutcome.ret none
  | SteamCallOutcome.parseError => PyOutcome.ret none
  | SteamCallOutcome.ok body => PyOutcome.ret (some body)

/-- Lines 153-176 of get_achievements_count: the counting logic applied to
the value returned by the query (None or the parsed body). -/
def get_achievements_count (game_achievements : Option AchievementsResponse) :
    AchievementsInfo :=
  let achievements_info : AchievementsInfo := { total := 0, achieved := 0 }
  match game_achievements with
  | none => { total := -1, achieved := -1 }
  | some ga =>
    match ga.playerstats with
    | none =>
      -- .get("playerstats", empty).get("success", False) is False
      { total := -1, achieved := -1 }
    | some ps =>
      if ps.success = false then
        { total := -1, achieved := -1 }
      else
        match ps.achievements with
        | none => { total := -1, achieved := -1 }
        | some achievements_array =>
          achievements_array.foldl
            (fun info a =>
              let info := { info with total := info.total + 1 }
              if a.achieved then { info with achieved := info.achieved + 1 }
              else info)
            achievements_info

/-- get_achievements_count as actually invoked (line 152 calls the query,
lines 153-176 count): an exception escaping the query propagates, since
get_achievements_count has no handler of its own. -/
def get_achievements_count_of_call (call : SteamCallOutcome) :
    PyOutcome AchievementsInfo :=
  match query_achievements_info_from_steam call with
  | PyOutcome.raise e => PyOutcome.raise e
  | PyOutcome.ret game_achievements =>
    PyOutcome.ret (get_achievements_count game_achievements)

/-! ## Notion query (query_item_from_notion_database, lines 293-322)

The parsed query response; only the results list matters, each result
collapsing to its page id. -/

structure QueryResponse where
  results : List String
deriving DecidableEq

/-- The send outcome comes from send_request_with_retry over an attempt
oracle; response.json() (which may raise, caught by the except clause) is
the `parse` argument. -/
def query_item_from_notion_database {α : Type} (attempt : ℕ → Option α)
    (parse : α → Option QueryResponse) : QueryResponse :=
  match (send_request_with_retry attempt MAX_RETRIES).1 with
  | some response =>
    match parse response with
    | some j => j
    | none => { results := [] }
  | none => { results := [] }

/-! ## Schema validator (validate_database_structure, lines 77-102)

The fetched database schema maps column names to type strings; a `none`
input is any exception raised during fetch or parse. -/

structure NotionDatabase where
  properties : List (String × String)
deriving DecidableEq

/-- The warnings the loop on lines 90-96 would log: one per expected
property whose live type mismatches, one per missing property. -/
def schema_warnings (database : NotionDatabase) : List String :=
  PROPERTY_TYPES.foldl
    (fun acc pt =>
      match database.properties.lookup pt.1 with
      | some db_prop_type =>
        if db_prop_type ≠ pt.2 then acc ++ ["type mismatch: " ++ pt.1] else acc
      | none => acc ++ ["missing property: " ++ pt.1])
    []

def validate_database_structure (fetched : Option NotionDatabase) : Bool :=
  match fetched with
  | some database =>
    let _warnings := schema_warnings database
    true
  | none => false

/-! ## Specification-side definitions used to state the claims -/

/-- The per-tag normalization described by the spec: a dict tag keeps its
name field, a non-dict tag becomes its str(), a dict tag without a name
field is dropped. -/
def tagName : Tag → Option String
  | Tag.dict (some n) => some n
  | Tag.dict none => none
  | Tag.nondict s => some s

/-- Number of warnings the tag loop logs: one per dict tag without a name
field (the warning branch on lines 265-267 and 395-397). -/
def tag_warning_count (ts : List Tag) : ℕ :=
  ts.foldl
    (fun n tag =>
      match tag with
      | Tag.dict none => n + 1
      | _ => n)
    0

/-! # Theorems -/

/-! ## Helper lemmas -/

theorem retryLoop_all_fail {α : Type} (attempt : ℕ → Option α)
    (h : ∀ i, attempt i = none) : ∀ i r, retryLoop attempt i r = (none, r) := by
  intro i r
  induction r generalizing i with
  | zero => rfl
  | succ r ih =>
    unfold retryLoop
    rw [h i]
    rcases Nat.eq_zero_or_pos r with hr | hr
    · subst hr
      simp
    · simp only [hr, if_pos, ih (i + 1)]

theorem add_props_lookup_completion (game : Game)
    (achievements_info : AchievementsInfo) (review_text : String)
    (steam_store_data : SteamStoreData) :
    (add_item_to_notion_database_properties game achievements_info review_text
        steam_store_data).lookup (pmGet "COMPLETION") =
      some (NotionProp.multiSelect
        (if completion_of achievements_info ≥ 0 then
          [formatFloat1 (completion_of achievements_info) ++ "%"]
        else [])) :=
  rfl

theorem update_props_lookup_completion (game : Game)
    (achievements_info : AchievementsInfo) (review_text : String)
    (steam_store_data : SteamStoreData) :
    (update_item_to_notion_database_properties game achievements_info review_text
        steam_store_data).lookup (pmGet "COMPLETION") =
      some (NotionProp.multiSelect
        (if completion_of achievements_info ≥ 0 then
          [formatFloat1 (completion_of achievements_info) ++ "%"]
        else [])) :=
  rfl

theorem add_props_lookup_tags (game : Game)
    (achievements_info : AchievementsInfo) (review_text : String)
    (steam_store_data : SteamStoreData) :
    (add_item_to_notion_database_properties game achievements_info review_text
        steam_store_data).lookup (pmGet "TAGS") =
      some (NotionProp.multiSelect ((getD steam_store_data.tag []).foldl
        (fun tags tag =>
          match tag with
          | Tag.dict (some n) => tags ++ [n]
          | Tag.dict none => tags
          | Tag.nondict s => tags ++ [s]) [])) :=
  rfl

theorem add_props_lookup_playtime (game : Game)
    (achievements_info : AchievementsInfo) (review_text : String)
    (steam_store_data : SteamStoreData) :
    (add_item_to_notion_database_properties game achievements_info review_text
        steam_store_data).lookup (pmGet "PLAYTIME") =
      some (NotionProp.number (round1 ((game.playtime_forever : ℚ) / 60))) :=
  rfl

theorem tags_foldl_eq_filterMap (ts : List Tag) (acc : List String) :
    ts.foldl
      (fun tags tag =>
        match tag with
        | Tag.dict (some n) => tags ++ [n]
        | Tag.dict none => tags
        | Tag.nondict s => tags ++ [s]) acc = acc ++ ts.filterMap tagName := by
  induction ts generalizing acc with
  | nil => simp
  | cons t ts ih =>
    cases t with
    | dict name =>
      cases name with
      | none => simp [List.foldl_cons, tagName, ih]
      | some n => simp [List.foldl_cons, tagName, ih]
    | nondict s => simp [List.foldl_cons, tagName, ih]

theorem roundHalfEven_bounds (q : ℚ) :
    ⌊q⌋ ≤ roundHalfEven q ∧ roundHalfEven q ≤ ⌈q⌉ := by
  unfold roundHalfEven
  have hfc : ⌊q⌋ ≤ ⌈q⌉ := Int.floor_le_ceil q
  have hlt : ¬(q - (⌊q⌋ : ℚ) < 1/2) → ⌊q⌋ + 1 ≤ ⌈q⌉ := by
    intro h
    have hq : (⌊q⌋ : ℚ) < q := by
      push_neg at h
      linarith
    exact Int.lt_ceil.mpr hq
  simp only []
  split_ifs with h1 h2 h3
  · exact ⟨le_refl _, hfc⟩
  · exact ⟨by omega, hlt h1⟩
  · exact ⟨le_refl _, hfc⟩
  · exact ⟨by omega, hlt h1⟩

theorem round1_bounds (q : ℚ) (h0 : 0 ≤ q) (h1 : q ≤ 100) :
    0 ≤ round1 q ∧ round1 q ≤ 100 := by
  obtain ⟨hl, hu⟩ := roundHalfEven_bounds (q * 10)
  have hfl : (0 : ℤ) ≤ ⌊q * 10⌋ := Int.floor_nonneg.mpr (by linarith)
  have hcu : ⌈q * 10⌉ ≤ (1000 : ℤ) := Int.ceil_le.mpr (by push_cast; linarith)
  have h0r : (0 : ℤ) ≤ roundHalfEven (q * 10) := le_trans hfl hl
  have h1r : roundHalfEven (q * 10) ≤ 1000 := le_trans hu hcu
  unfold round1
  constructor
  · have : (0 : ℚ) ≤ (roundHalfEven (q * 10) : ℚ) := by exact_mod_cast h0r
    linarith
  · have : ((roundHalfEven (q * 10) : ℤ) : ℚ) ≤ 1000 := by exact_mod_cast h1r
    linarith

theorem count_foldl (arr : List AchievementEntry) (t a : ℤ) :
    arr.foldl
      (fun (info : AchievementsInfo) (x : AchievementEntry) =>
        let info := { info with total := info.total + 1 }
        if x.achieved then { info with achieved := info.achieved + 1 }
        else info)
      { total := t, achieved := a } =
    { total := t + arr.length,
      achieved := a + ((arr.filter fun x => x.achieved).length : ℤ) } := by
  induction arr generalizing t a with
  | nil => simp
  | cons x xs ih =>
    simp only [List.foldl_cons, List.filter_cons]
    cases hx : x.achieved with
    | true =>
      simp only [hx, if_true]
      rw [ih]
      simp only [AchievementsInfo.mk.injEq, List.length_cons]
      exact ⟨by push_cast; try ring, by push_cast; try ring⟩
    | false =>
      simp only [hx, if_false, Bool.false_eq_true]
      rw [ih]
      simp only [AchievementsInfo.mk.injEq, List.length_cons]
      exact ⟨by push_cast; try ring, by push_cast; try ring⟩

/-! ## Claim theorems -/

/-- C1: for every game, achievements info, review text and store data, the
Notion properties payload derived by the create operation
(add_item_to_notion_database) is identical to the payload derived by the
update operation (update_item_to_notion_database) on the same inputs, so
creating then immediately updating the same game yields properties equal to
those of a fresh create with the same inputs. -/
theorem create_update_properties_identical (game : Game)
    (achievements_info : AchievementsInfo) (review_text : String)
    (steam_store_data : SteamStoreData) :
    add_item_to_notion_database_properties game achievements_info review_text
        steam_store_data =
      update_item_to_notion_database_properties game achievements_info
        review_text steam_store_data :=
  rfl

/-- C2: when every attempt fails, send_request_with_retry performs exactly
the retry-budget number of attempts -- no fewer and no more, for every
budget, and in particular for the default budget MAX_RETRIES = 20 -- and
returns the empty-dict failure value, modelled as `none`. -/
theorem retry_exhaustion_attempts_and_empty (α : Type) (attempt : ℕ → Option α)
    (h : ∀ i, attempt i = none) :
    (∀ retries : ℕ,
      send_request_with_retry attempt retries = (none, retries)) ∧
    send_request_with_retry attempt MAX_RETRIES = (none, MAX_RETRIES) ∧
      MAX_RETRIES = 20 :=
  ⟨fun retries => retryLoop_all_fail attempt h 0 retries,
   retryLoop_all_fail attempt h 0 MAX_RETRIES, rfl⟩

/-- C2 witness: the all-failures oracle at the default budget. -/
theorem retry_exhaustion_attempts_and_empty_witness :
    send_request_with_retry (fun _ : ℕ => (none : Option ℕ)) MAX_RETRIES =
        (none, MAX_RETRIES) ∧ MAX_RETRIES = 20 :=
  (retry_exhaustion_attempts_and_empty ℕ (fun _ => none) (fun _ => rfl)).2

/-- C3: is_record returns false iff playtime < 0.1 hours and
achievements.total < 1, or last_played < the 2020-01-01 cutoff and
achievements.total < 1 and playtime < 6 hours, and returns true otherwise
(playtime being the derived round(playtime_forever / 60, 1)).  The boundary
instances evaluate the filter condition with the last-played timestamp at
the cutoff, where the recency clause is inactive: playtime 0.1 yields true
and playtime 0.099 with total 0 yields false. -/
theorem is_record_characterization :
    (∀ (game : Game) (achievements_info : AchievementsInfo),
      is_record game achievements_info = false ↔
        (round1 ((game.playtime_forever : ℚ) / 60) < 1/10 ∧
          achievements_info.total < 1) ∨
        (getD game.rtime_last_played 0 < not_record_timestamp ∧
          achievements_info.total < 1 ∧
          round1 ((game.playtime_forever : ℚ) / 60) < 6)) ∧
    is_record_core (1/10) not_record_timestamp 0 = true ∧
    is_record_core (99/1000) not_record_timestamp 0 = false := by
  refine ⟨?_, by norm_num [is_record_core], by norm_num [is_record_core]⟩
  intro game achievements_info
  simp only [is_record, is_record_core]
  split
  · rename_i hc
    exact iff_of_true rfl hc
  · rename_i hc
    exact iff_of_false (by simp) hc

/-- C4: whenever achievements_info.total is at most 0 (in particular for
the sentinel total -1, achieved -1), the derived completion is -1 and the
multi-select COMPLETION property is written with an empty option set, in
both the create and the update payloads; when total is positive, completion
equals round(achieved / total * 100, 1). -/
theorem completion_sentinel_propagation (game : Game) (review_text : String)
    (steam_store_data : SteamStoreData) (achievements_info : AchievementsInfo) :
    (achievements_info.total ≤ 0 →
      completion_of achievements_info = -1 ∧
      (add_item_to_notion_database_properties game achievements_info
          review_text steam_store_data).lookup (pmGet "COMPLETION") =
        some (NotionProp.multiSelect []) ∧
      (update_item_to_notion_database_properties game achievements_info
          review_text steam_store_data).lookup (pmGet "COMPLETION") =
        some (NotionProp.multiSelect [])) ∧
    (0 < achievements_info.total →
      completion_of achievements_info =
        round1 ((achievements_info.achieved : ℚ) /
          (achievements_info.total : ℚ) * 100)) := by
  constructor
  · intro h
    have hc : completion_of achievements_info = -1 := by
      unfold completion_of
      rw [if_neg (by omega)]
    refine ⟨hc, ?_, ?_⟩
    · rw [add_props_lookup_completion, hc, if_neg (by norm_num)]
    · rw [update_props_lookup_completion, hc, if_neg (by norm_num)]
  · intro h
    unfold completion_of
    rw [if_pos h]

/-- C4 witness: the sentinel achievements info on a concrete game. -/
theorem completion_sentinel_propagation_witness :
    completion_of { total := -1, achieved := -1 } = -1 ∧
    (add_item_to_notion_database_properties
        { appid := 0, name := "g", playtime_forever := 0,
          rtime_last_played := none, img_icon_url := "" }
        { total := -1, achieved := -1 } ""
        { info := none, tag := none }).lookup (pmGet "COMPLETION") =
      some (NotionProp.multiSelect []) ∧
    (update_item_to_notion_database_properties
        { appid := 0, name := "g", playtime_forever := 0,
          rtime_last_played := none, img_icon_url := "" }
        { total := -1, achieved := -1 } ""
        { info := none, tag := none }).lookup (pmGet "COMPLETION") =
      some (NotionProp.multiSelect []) :=
  (completion_sentinel_propagation
    { appid := 0, name := "g", playtime_forever := 0,
      rtime_last_played := none, img_icon_url := "" } ""
    { info := none, tag := none }
    { total := -1, achieved := -1 }).1 (by norm_num)

/-- C5: the multi-select TAGS normalization maps each dict tag with a name
field to an option named tag["name"], each non-dict tag to an option named
str(tag), and drops (with one warning) each dict tag lacking a name field,
preserving input order; on the input list of the bare string Indie, the
dict with name RPG and a nameless dict, the result is the two options
Indie and RPG with one warning. -/
theorem tags_normalization :
    (∀ (game : Game) (achievements_info : AchievementsInfo)
        (review_text : String) (steam_store_data : SteamStoreData),
      (add_item_to_notion_database_properties game achievements_info
          review_text steam_store_data).lookup (pmGet "TAGS") =
        some (NotionProp.multiSelect
          ((getD steam_store_data.tag []).filterMap tagName))) ∧
    (add_item_to_notion_database_properties
        { appid := 0, name := "g", playtime_forever := 0,
          rtime_last_played := none, img_icon_url := "" }
        { total := 0, achieved := 0 } ""
        { info := none,
          tag := some [Tag.nondict "Indie", Tag.dict (some "RPG"),
            Tag.dict none] }).lookup (pmGet "TAGS") =
      some (NotionProp.multiSelect ["Indie", "RPG"]) ∧
    tag_warning_count [Tag.nondict "Indie", Tag.dict (some "RPG"),
      Tag.dict none] = 1 := by
  refine ⟨?_, rfl, rfl⟩
  intro game achievements_info review_text steam_store_data
  rw [add_props_lookup_tags, tags_foldl_eq_filterMap]
  simp

/-- C6: for the game with appid 10, name Half-Life, playtime_forever 600
and rtime_last_played 1700000000, with achievements total 20 achieved 10,
the derived properties have playtime 10.0, completion 50.0 and the
COMPLETION multi-select holds the single option named 50.0%. -/
theorem half_life_end_to_end :
    (add_item_to_notion_database_properties
        { appid := 10, name := "Half-Life", playtime_forever := 600,
          rtime_last_played := some 1700000000, img_icon_url := "" }
        { total := 20, achieved := 10 } ""
        { info := none, tag := none }).lookup (pmGet "PLAYTIME") =
      some (NotionProp.number 10) ∧
    completion_of { total := 20, achieved := 10 } = 50 ∧
    (add_item_to_notion_database_properties
        { appid := 10, name := "Half-Life", playtime_forever := 600,
          rtime_last_played := some 1700000000, img_icon_url := "" }
        { total := 20, achieved := 10 } ""
        { info := none, tag := none }).lookup (pmGet "COMPLETION") =
      some (NotionProp.multiSelect ["50.0%"]) := by
  have hco : completion_of { total := 20, achieved := 10 } = 50 := by
    norm_num [completion_of, round1, roundHalfEven]
  have hff : formatFloat1 50 = "50.0" := by
    have h5 : (⌊(50 : ℚ) * 10⌋ : ℤ) = 500 := by norm_num
    simp only [formatFloat1, h5]
    rfl
  refine ⟨?_, hco, ?_⟩
  · rw [add_props_lookup_playtime]
    norm_num [round1, roundHalfEven]
  · rw [add_props_lookup_completion, hco, if_pos (by norm_num)]
    rw [hff]
    rfl

/-- C7: when the underlying HTTP call fails every attempt (so the retry
client returns its empty failure value) or response parsing raises,
query_item_from_notion_database returns the empty results object, the same
value as no matching page found. -/
theorem query_failure_degrades_to_empty (α : Type) (attempt : ℕ → Option α)
    (parse : α → Option QueryResponse)
    (h : (∀ i, attempt i = none) ∨ (∀ x, parse x = none)) :
    query_item_from_notion_database attempt parse = { results := [] } := by
  rcases h with h | h
  · unfold query_item_from_notion_database
    rw [show send_request_with_retry attempt MAX_RETRIES = (none, MAX_RETRIES) from
      retryLoop_all_fail attempt h 0 MAX_RETRIES]
  · unfold query_item_from_notion_database
    cases hs : (send_request_with_retry attempt MAX_RETRIES).1 with
    | none => rfl
    | some r => simp [h r]

/-- C7 witness: an all-failing attempt oracle. -/
theorem query_failure_degrades_to_empty_witness :
    query_item_from_notion_database (fun _ : ℕ => (none : Option ℕ))
      (fun _ => none) = { results := [] } :=
  query_failure_degrades_to_empty ℕ (fun _ => none) (fun _ => none)
    (Or.inl fun _ => rfl)

/-- C8: validate_database_structure returns true whenever the schema fetch
and parse succeed, regardless of any property-type mismatches or missing
properties (which are only warned about), and returns false only when the
fetch or parse itself raises; in particular there is a database whose
schema produces warnings yet validates as true. -/
theorem validator_only_reflects_fetch :
    (∀ database : NotionDatabase,
      validate_database_structure (some database) = true) ∧
    validate_database_structure none = false ∧
    (∃ database : NotionDatabase, schema_warnings database ≠ [] ∧
      validate_database_structure (some database) = true) :=
  ⟨fun _ => rfl, rfl, ⟨{ properties := [] }, by decide, rfl⟩⟩

/-- Case analysis of the counting logic: the sentinel (total -1, achieved
-1) arises exactly from a None query value, an absent playerstats key, a
false success flag or an absent achievements list; otherwise total is the
entry count and achieved the truthy-achieved count. -/
theorem get_achievements_count_cases
    (resp : Option AchievementsResponse) :
    (get_achievements_count resp = { total := -1, achieved := -1 } ↔
      resp = none ∨
      ∃ ga, resp = some ga ∧
        (ga.playerstats = none ∨
         ∃ ps, ga.playerstats = some ps ∧
           (ps.success = false ∨ ps.achievements = none))) ∧
    (∀ ga ps arr, resp = some ga → ga.playerstats = some ps →
      ps.success = true → ps.achievements = some arr →
      get_achievements_count resp =
        { total := (arr.length : ℤ),
          achieved := ((arr.filter fun x => x.achieved).length : ℤ) }) := by
  cases resp with
  | none =>
    refine ⟨⟨fun _ => Or.inl rfl, fun _ => rfl⟩, ?_⟩
    intro ga ps arr hga
    exact absurd hga (by simp)
  | some ga =>
    cases hps : ga.playerstats with
    | none =>
      constructor
      · refine ⟨fun _ => Or.inr ⟨ga, rfl, Or.inl hps⟩, fun _ => ?_⟩
        simp [get_achievements_count, hps]
      · intro ga2 ps arr hga2 hps2
        injection hga2 with hga2
        subst hga2
        rw [hps] at hps2
        exact absurd hps2 (by simp)
    | some ps =>
      cases hsu : ps.success with
      | false =>
        constructor
        · refine ⟨fun _ => Or.inr ⟨ga, rfl, Or.inr ⟨ps, hps, Or.inl hsu⟩⟩,
            fun _ => ?_⟩
          simp [get_achievements_count, hps, hsu]
        · intro ga2 ps2 arr hga2 hps2 hsu2
          injection hga2 with hga2
          subst hga2
          rw [hps] at hps2
          injection hps2 with hps2
          subst hps2
          rw [hsu] at hsu2
          exact absurd hsu2 (by simp)
      | true =>
        cases hach : ps.achievements with
        | none =>
          constructor
          · refine ⟨fun _ =>
              Or.inr ⟨ga, rfl, Or.inr ⟨ps, hps, Or.inr hach⟩⟩, fun _ => ?_⟩
            simp [get_achievements_count, hps, hsu, hach]
          · intro ga2 ps2 arr hga2 hps2 hsu2 hach2
            injection hga2 with hga2
            subst hga2
            rw [hps] at hps2
            injection hps2 with hps2
            subst hps2
            rw [hach] at hach2
            exact absurd hach2 (by simp)
        | some arr =>
          have hval : get_achievements_count (some ga) =
              { total := (arr.length : ℤ),
                achieved := ((arr.filter fun x => x.achieved).length : ℤ) } := by
            simp only [get_achievements_count, hps, hsu, hach,
              Bool.true_eq_false, if_false]
            rw [count_foldl]
            simp
          constructor
          · rw [hval]
            constructor
            · intro hsent
              have := congrArg AchievementsInfo.total hsent
              simp at this
            · intro hcase
              rcases hcase with hnone | ⟨ga2, hga2, hrest⟩
              · exact absurd hnone (by simp)
              · injection hga2 with hga2
                subst hga2
                rcases hrest with hpn | ⟨ps2, hps2, hrest⟩
                · rw [hps] at hpn
                  exact absurd hpn (by simp)
                · rw [hps] at hps2
                  injection hps2 with hps2
                  subst hps2
                  rcases hrest with hsf | han
                  · rw [hsu] at hsf
                    exact absurd hsf (by simp)
                  · rw [hach] at han
                    exact absurd han (by simp)
          · intro ga2 ps2 arr2 hga2 hps2 hsu2 hach2
            injection hga2 with hga2
            subst hga2
            rw [hps] at hps2
            injection hps2 with hps2
            subst hps2
            rw [hach] at hach2
            injection hach2 with hach2
            subst hach2
            exact hval

/-- C9: the claim states get_achievements_count returns the sentinel
(total -1, achieved -1) whenever the achievements call fails.  That holds
for a non-2xx status and for a parse error, whose handlers fall through to
returning None, but not for a transport-level failure: when requests.get
itself raises, `response` was never bound, the handler on line 145
evaluates the unbound local and raises UnboundLocalError, and the call
crashes instead of returning the sentinel. -/
theorem achievements_transport_failure_crashes :
    get_achievements_count_of_call SteamCallOutcome.transportError =
      PyOutcome.raise "UnboundLocalError" ∧
    get_achievements_count_of_call SteamCallOutcome.transportError ≠
      PyOutcome.ret { total := -1, achieved := -1 } ∧
    get_achievements_count_of_call SteamCallOutcome.httpError =
      PyOutcome.ret { total := -1, achieved := -1 } ∧
    get_achievements_count_of_call SteamCallOutcome.parseError =
      PyOutcome.ret { total := -1, achieved := -1 } := by
  refine ⟨rfl, ?_, rfl, rfl⟩
  intro h
  exact absurd h (by decide)

/-- C10: the achievements info returned by get_achievements_count is either
the sentinel (total -1, achieved -1) or satisfies 0 <= achieved <= total;
consequently the derived completion value is either -1 or lies in the
closed interval from 0 to 100. -/
theorem completion_always_in_range (resp : Option AchievementsResponse) :
    ((get_achievements_count resp).total = -1 ∧
        (get_achievements_count resp).achieved = -1 ∨
      0 ≤ (get_achievements_count resp).achieved ∧
        (get_achievements_count resp).achieved ≤
          (get_achievements_count resp).total) ∧
    (completion_of (get_achievements_count resp) = -1 ∨
      0 ≤ completion_of (get_achievements_count resp) ∧
        completion_of (get_achievements_count resp) ≤ 100) := by
  have hsent : completion_of { total := -1, achieved := -1 } = -1 := by
    norm_num [completion_of]
  rcases hval : get_achievements_count resp with ⟨t, a⟩
  have hcases : (t = -1 ∧ a = -1) ∨
      (∃ arr : List AchievementEntry, t = (arr.length : ℤ) ∧
        a = ((arr.filter fun x => x.achieved).length : ℤ)) := by
    rcases resp with _ | ⟨_ | ps⟩
    · left
      have : get_achievements_count none =
          { total := -1, achieved := -1 } := rfl
      rw [hval] at this
      injection this with h1 h2
      exact ⟨h1, h2⟩
    · left
      have : get_achievements_count (some { playerstats := none }) =
          { total := -1, achieved := -1 } := rfl
      rw [hval] at this
      injection this with h1 h2
      exact ⟨h1, h2⟩
    · cases hsu : ps.success with
      | false =>
        left
        have := ((get_achievements_count_cases
          (some { playerstats := some ps })).1).mpr
          (Or.inr ⟨_, rfl, Or.inr ⟨ps, rfl, Or.inl hsu⟩⟩)
        rw [hval] at this
        injection this with h1 h2
        exact ⟨h1, h2⟩
      | true =>
        cases hach : ps.achievements with
        | none =>
          left
          have := ((get_achievements_count_cases
            (some { playerstats := some ps })).1).mpr
            (Or.inr ⟨_, rfl, Or.inr ⟨ps, rfl, Or.inr hach⟩⟩)
          rw [hval] at this
          injection this with h1 h2
          exact ⟨h1, h2⟩
        | some arr =>
          right
          have := (get_achievements_count_cases
            (some { playerstats := some ps })).2 _ ps arr rfl rfl hsu hach
          rw [hval] at this
          injection this with h1 h2
          exact ⟨arr, h1, h2⟩
  rcases hcases with ⟨ht, ha⟩ | ⟨arr, ht, ha⟩
  · subst ht
    subst ha
    exact ⟨Or.inl ⟨rfl, rfl⟩, Or.inl hsent⟩
  · subst ht
    subst ha
    have hle : ((arr.filter fun x => x.achieved).length : ℤ) ≤
        (arr.length : ℤ) := by
      exact_mod_cast List.length_filter_le _ arr
    refine ⟨Or.inr ⟨Int.natCast_nonneg _, hle⟩, ?_⟩
    by_cases hlen : arr.length = 0
    · left
      unfold completion_of
      rw [if_neg (by simp [hlen])]
    · right
      have hpos : (0 : ℤ) < (arr.length : ℤ) := by
        have := Nat.pos_of_ne_zero hlen
        exact_mod_cast this
      unfold completion_of
      rw [if_pos hpos]
      have hc0 : (0 : ℚ) ≤ (((arr.filter fun x => x.achieved).length : ℤ) : ℚ) := by
        exact_mod_cast Int.natCast_nonneg _
      have hl0 : (0 : ℚ) < (((arr.length : ℤ)) : ℚ) := by
        exact_mod_cast hpos
      have hq0 : (0 : ℚ) ≤ (((arr.filter fun x => x.achieved).length : ℤ) : ℚ) /
          (((arr.length : ℤ)) : ℚ) * 100 := by
        apply mul_nonneg (div_nonneg hc0 (le_of_lt hl0))
        norm_num
      have hdiv : (((arr.filter fun x => x.achieved).length : ℤ) : ℚ) /
          (((arr.length : ℤ)) : ℚ) ≤ 1 := by
        rw [div_le_one hl0]
        exact_mod_cast hle
      have hq1 : (((arr.filter fun x => x.achieved).length : ℤ) : ℚ) /
          (((arr.length : ℤ)) : ℚ) * 100 ≤ 100 := by
        have := mul_le_mul_of_nonneg_right hdiv (by norm_num : (0:ℚ) ≤ 100)
        linarith
      exact round1_bounds _ hq0 hq1

end SteamNotion
